import Mathlib

/-!
Shallow embedding of `src/my_agent/agent.py` (Resume-Optimizer-AI-Agent):
the three procedural tools of the repository — the confirmation-gated input
collector `resume_gap_asker_tool`, the template loader
`get_latex_template_tool`, and the artifact writer
`save_generated_resume_latex`.

Python values stored in the session state / confirmation payloads are
modelled by the inductive `Value`; Python dict access `d[k]` that can raise
`KeyError` is modelled by `List.lookup`; the body of the `try:` block of the
collector is modelled as a function into `Except PyExc … × SessionState`
(the session state is threaded out of the block even when an exception is
raised, since Python does not roll back mutations), and the `except` clause
of the source converts every such exception into the structured error
result, so the top-level tool is a total function.
-/

namespace ResumeOptimizer

/-- A Python value as it can appear in the session state or in a
confirmation payload: a string, an integer, or `None`. -/
inductive Value where
  | vStr : String → Value
  | vInt : Int → Value
  | vNone : Value
deriving DecidableEq, Repr

/-- Python `str(v)`, as used by the f-string that builds the hint. -/
def Value.pyStr : Value → String
  | .vStr s => s
  | .vInt n => toString n
  | .vNone => "None"

/-- Python `type(v).__name__`, as it appears in an `AttributeError` text. -/
def Value.pyTypeName : Value → String
  | .vStr _ => "str"
  | .vInt _ => "int"
  | .vNone => "NoneType"

/-- Whether the value is a Python `str`. -/
def Value.isStr : Value → Bool
  | .vStr _ => true
  | _ => false

/-- Python `str.upper()`: upper-case the string character by character
(ASCII model, which covers every string the source compares: the literal
is the ASCII `"SKIP"`). -/
def pyUpper (s : String) : String := ⟨s.data.map Char.toUpper⟩

/-- The session state: a mapping from string keys to values
(`tool_context.state`). Absent keys map to `none`. -/
def SessionState : Type := String → Option Value

/-- Python `state.get(key, default)`. -/
def stateGet (s : SessionState) (key : String) (default : Value) : Value :=
  (s key).getD default

/-- Python `state[key] = v`: overwrite one key, keep every other binding. -/
def stateSet (s : SessionState) (key : String) (v : Value) : SessionState :=
  fun k2 => if k2 = key then some v else s k2

/-- The session state with no keys set. -/
def emptyState : SessionState := fun _ => none

/-- `tool_context.tool_confirmation`: the reply object delivered by the
confirmation channel, carrying a payload dict. -/
structure ToolConfirmation where
  payload : List (String × Value)
deriving DecidableEq, Repr

/-- A confirmation request registered by `request_confirmation(hint=…,
payload=…)`: the hint shown to the user and the example payload shape. -/
structure PendingRequest where
  hint : String
  payload : List (String × Value)
deriving DecidableEq, Repr

/-- The `ToolContext` of the ADK, restricted to the members the source
reads or writes: the session state, the optional confirmation reply, and
the registry of confirmation requests this call has registered. -/
structure ToolContext where
  state : SessionState
  tool_confirmation : Option ToolConfirmation
  pending_requests : List PendingRequest

/-- `tool_context.request_confirmation(hint=…, payload=…)`: registers one
pending confirmation request. -/
def ToolContext.request_confirmation (ctx : ToolContext) (hint : String)
    (payload : List (String × Value)) : ToolContext :=
  { ctx with pending_requests := ctx.pending_requests ++ [{ hint := hint, payload := payload }] }

/-- The structured result dict returned by `resume_gap_asker_tool`. A key
the branch does not put in its dict is `none`. -/
structure ToolResult where
  status : String
  message : Option String := none
  user_input : Option String := none
deriving DecidableEq, Repr

/-- The Python exceptions the `try:` block of the collector can raise:
`KeyError` from `payload["user_response"]`, and `AttributeError` from
`.upper()` on a non-string. -/
inductive PyExc where
  | keyError : String → PyExc
  | attributeError : String → String → PyExc
deriving DecidableEq, Repr

/-- Python `str(e)` for the exceptions above. -/
def PyExc.str : PyExc → String
  | .keyError k => "'" ++ k ++ "'"
  | .attributeError ty at2 => "'" ++ ty ++ "' object has no attribute '" ++ at2 ++ "'"

/-- The fixed explanatory text the skipped branch puts in its result
(`"User chose to proceed without additional information"`). -/
def skipUserInputText : String := "User chose to proceed without additional information"

/-- Lines 36-56 of `agent.py`: the body of the `try:` block. Returns the
result or the exception, together with the session state as it stands when
the block exits (Python keeps mutations made before an exception). -/
def gapAskerTry (ctx : ToolContext) (conf : ToolConfirmation) :
    Except PyExc ToolResult × SessionState :=
  match conf.payload.lookup "user_response" with
  | none => (.error (.keyError "user_response"), ctx.state)
  | some user_response =>
    let user_input := stateGet ctx.state "user_input" (Value.vStr "")
    let user_input := user_response
    let state2 := stateSet ctx.state "user_input" user_input
    match user_response with
    | .vStr s =>
      if pyUpper s = "SKIP" then
        (.ok { status := "skipped",
               user_input := some skipUserInputText,
               message := some "Proceeding with current resume..." }, state2)
      else
        (.ok { status := "info_collected", user_input := some s }, state2)
    | v => (.error (.attributeError v.pyTypeName "upper"), state2)

/-- `resume_gap_asker_tool` (lines 10-61 of `agent.py`): a total function
from the tool context to the result dict and the updated context. -/
def resume_gap_asker_tool (tool_context : ToolContext) : ToolResult × ToolContext :=
  let critique := stateGet tool_context.state "critique" (Value.vStr "")
  match tool_context.tool_confirmation with
  | none =>
    let hint := "To improve your resume, please provide: " ++ critique.pyStr ++
      "\n\nYou can also type 'SKIP' to proceed with current resume."
    let ctx2 := tool_context.request_confirmation hint
      [("user_response", Value.vStr "your input here")]
    ({ status := "awaiting_user_input",
       message := some "Waiting for user response..." }, ctx2)
  | some conf =>
    match gapAskerTry tool_context conf with
    | (.ok res, st) => (res, { tool_context with state := st })
    | (.error e, st) =>
      ({ status := "error",
         message := some ("An error occurred: " ++ e.str) },
       { tool_context with state := st })

/-- What reading the template file can yield: its content, a missing-file
condition, or another read failure. -/
inductive FileReadResult where
  | content : String → FileReadResult
  | fileNotFound : FileReadResult
  | readError : String → FileReadResult
deriving DecidableEq, Repr

/-- The two conditions `get_latex_template_tool` raises: the re-raised
`FileNotFoundError` and the generic `Exception`. -/
inductive TemplateError where
  | fileNotFoundError : String → TemplateError
  | genericError : String → TemplateError
deriving DecidableEq, Repr

/-- `Path(__file__).parent / "resume.tex"`, with the directory of
`agent.py` as a parameter. -/
def templatePath (fileDir : String) : String := fileDir ++ "/resume.tex"

/-- `get_latex_template_tool` (lines 63-80 of `agent.py`), over a file
system modelled as a map from paths to read outcomes. -/
def get_latex_template_tool (fs : String → FileReadResult) (fileDir : String) :
    Except TemplateError String :=
  match fs (templatePath fileDir) with
  | .content latex_content => .ok latex_content
  | .fileNotFound =>
    .error (.fileNotFoundError ("LaTeX template not found at: " ++ templatePath fileDir))
  | .readError msg =>
    .error (.genericError ("Error reading LaTeX template: " ++ msg))

/-- `types.Blob`: a mime type and a byte payload. -/
structure Blob where
  mime_type : String
  data : List Nat
deriving DecidableEq, Repr

/-- `types.Part` with inline data. -/
structure Part where
  inline_data : Blob
deriving DecidableEq, Repr

/-- What `tool_context.save_artifact` can raise: the `ValueError` of a
missing artifact service, or any other exception. -/
inductive SaveExc where
  | valueError : String → SaveExc
  | otherError : String → SaveExc
deriving DecidableEq, Repr

/-- `s.encode('utf-8')` as a list of byte values. -/
def utf8Bytes (s : String) : List Nat := s.toUTF8.toList.map (fun b => b.toNat)

/-- The success dict of `save_generated_resume_latex`. -/
structure SaveSuccess where
  status : String
  message : String
deriving DecidableEq, Repr

/-- The `types.Part` built by `save_generated_resume_latex` for a given
content (lines 86-93 of `agent.py`). -/
def latexArtifactPart (latex_content : String) : Part :=
  { inline_data := { mime_type := "text/plain", data := utf8Bytes latex_content } }

/-- `save_generated_resume_latex` (lines 82-106 of `agent.py`), over an
artifact service modelled as a function from filename and part to a version
or an exception. Returns the value the caller receives (`none` models the
implicit Python `None` of the two `except` branches) and the list of lines
the function prints. -/
def save_generated_resume_latex (save_artifact : String → Part → Except SaveExc Nat)
    (latex_content : String) : Option SaveSuccess × List String :=
  let latex_bytes := utf8Bytes latex_content
  let artifact_part : Part := { inline_data := { mime_type := "text/plain", data := latex_bytes } }
  let filename := "generated_resume_latex.tex"
  match save_artifact filename artifact_part with
  | .ok version =>
    (some { status := "success",
            message := "File '" ++ filename ++ "' (version " ++ toString version ++
              ") has been created and is now available for download." }, [])
  | .error (.valueError e) =>
    (none, ["Error saving LaTeX artifact: " ++ e ++ ". Is ArtifactService configured in Runner?"])
  | .error (.otherError e) =>
    (none, ["An unexpected error occurred during LaTeX artifact save: " ++ e])

/-- The confirmation request the first call registers for a given critique
value (lines 25-29 of `agent.py`). -/
def firstCallRequest (critique : Value) : PendingRequest :=
  { hint := "To improve your resume, please provide: " ++ critique.pyStr ++
      "\n\nYou can also type 'SKIP' to proceed with current resume.",
    payload := [("user_response", Value.vStr "your input here")] }

/-- A concrete first-call context: a critique in state, no reply. -/
def ctxFirst : ToolContext :=
  { state := stateSet emptyState "critique" (Value.vStr "Add a quantified achievement to Project X"),
    tool_confirmation := none,
    pending_requests := [] }

/-- A well-formed confirmation reply carrying the string `r`. -/
def replyConf (r : String) : ToolConfirmation :=
  { payload := [("user_response", Value.vStr r)] }

/-- A context in the answered state: one request registered, reply `r`. -/
def ctxReply (r : String) : ToolContext :=
  { state := emptyState,
    tool_confirmation := some (replyConf r),
    pending_requests := [{ hint := "h", payload := [("user_response", Value.vStr "your input here")] }] }

/-- A context carrying a reply although no request was ever registered. -/
def unsolicitedCtx : ToolContext :=
  { state := emptyState,
    tool_confirmation := some (replyConf "extra detail"),
    pending_requests := [] }

/-- A context whose reply payload holds a non-string under `user_response`,
over a prior state in which `user_input` is already set. -/
def badReplyCtx : ToolContext :=
  { state := stateSet emptyState "user_input" (Value.vStr "old"),
    tool_confirmation := some { payload := [("user_response", Value.vInt 7)] },
    pending_requests := [{ hint := "h", payload := [] }] }

/-- A context whose reply payload lacks the `user_response` field. -/
def missingFieldCtx : ToolContext :=
  { state := stateSet emptyState "user_input" (Value.vStr "old"),
    tool_confirmation := some { payload := [("other", Value.vStr "x")] },
    pending_requests := [{ hint := "h", payload := [] }] }

/-- An artifact service that raises the missing-service `ValueError`. -/
def svcNotConfigured : String → Part → Except SaveExc Nat :=
  fun _ _ => .error (.valueError "Artifact service is not initialized")

/-- An artifact service that raises an unexpected exception. -/
def svcBroken : String → Part → Except SaveExc Nat :=
  fun _ _ => .error (.otherError "disk full")

/-- An artifact service that stores everything and answers version 3. -/
def svcOk : String → Part → Except SaveExc Nat := fun _ _ => .ok 3

/-- A file system in which every path is missing. -/
def fsAllMissing : String → FileReadResult := fun _ => .fileNotFound

/-- C1: for every session state and critique value, invoking the collector
with no confirmation reply present returns status `"awaiting_user_input"`,
registers exactly one pending confirmation request (appended to the
registry), and leaves the session state — in particular the key
`"user_input"` — entirely unchanged. -/
theorem C1_first_call_awaits (ctx : ToolContext)
    (h : ctx.tool_confirmation = none) :
    (resume_gap_asker_tool ctx).1.status = "awaiting_user_input" ∧
    (resume_gap_asker_tool ctx).2.pending_requests =
      ctx.pending_requests ++ [firstCallRequest (stateGet ctx.state "critique" (Value.vStr ""))] ∧
    (resume_gap_asker_tool ctx).2.pending_requests.length = ctx.pending_requests.length + 1 ∧
    (resume_gap_asker_tool ctx).2.state = ctx.state := by
  simp [resume_gap_asker_tool, h, ToolContext.request_confirmation, firstCallRequest]

/-- C1 witness: the first-call theorem at the concrete context `ctxFirst`. -/
theorem C1_first_call_awaits_witness :
    (resume_gap_asker_tool ctxFirst).1.status = "awaiting_user_input" ∧
    (resume_gap_asker_tool ctxFirst).2.pending_requests =
      ctxFirst.pending_requests ++
        [firstCallRequest (stateGet ctxFirst.state "critique" (Value.vStr ""))] ∧
    (resume_gap_asker_tool ctxFirst).2.pending_requests.length = ctxFirst.pending_requests.length + 1 ∧
    (resume_gap_asker_tool ctxFirst).2.state = ctxFirst.state :=
  C1_first_call_awaits ctxFirst rfl

/-- C2: for every reply string R whose upper-cased form is not `"SKIP"`,
the collector returns status `"info_collected"` with `user_input` exactly R
in the result, and writes R into the session state under `"user_input"`. -/
theorem C2_pass_through (ctx : ToolContext) (conf : ToolConfirmation) (R : String)
    (hc : ctx.tool_confirmation = some conf)
    (hp : conf.payload.lookup "user_response" = some (Value.vStr R))
    (hs : pyUpper R ≠ "SKIP") :
    (resume_gap_asker_tool ctx).1.status = "info_collected" ∧
    (resume_gap_asker_tool ctx).1.user_input = some R ∧
    (resume_gap_asker_tool ctx).2.state "user_input" = some (Value.vStr R) := by
  refine ⟨?_, ?_, ?_⟩ <;>
    simp [resume_gap_asker_tool, hc, gapAskerTry, hp, hs, stateSet]

/-- C2 witness: the pass-through theorem at the concrete reply
"I led a 3-person team and cut load time 40". -/
theorem C2_pass_through_witness :
    (resume_gap_asker_tool (ctxReply "I led a 3-person team and cut load time 40")).1.status = "info_collected" ∧
    (resume_gap_asker_tool (ctxReply "I led a 3-person team and cut load time 40")).1.user_input =
      some "I led a 3-person team and cut load time 40" ∧
    (resume_gap_asker_tool (ctxReply "I led a 3-person team and cut load time 40")).2.state "user_input" =
      some (Value.vStr "I led a 3-person team and cut load time 40") :=
  C2_pass_through (ctxReply "I led a 3-person team and cut load time 40") _
    "I led a 3-person team and cut load time 40" rfl rfl (by decide)

/-- C3: for every reply string whose upper-cased form equals `"SKIP"`
(so in particular "SKIP", "skip", "Skip"), the collector returns status
`"skipped"` whose `user_input` field is the fixed explanatory text, not the
reply itself. -/
theorem C3_skip_case_insensitive (ctx : ToolContext) (conf : ToolConfirmation) (R : String)
    (hc : ctx.tool_confirmation = some conf)
    (hp : conf.payload.lookup "user_response" = some (Value.vStr R))
    (hs : pyUpper R = "SKIP") :
    (resume_gap_asker_tool ctx).1.status = "skipped" ∧
    (resume_gap_asker_tool ctx).1.user_input = some skipUserInputText := by
  constructor <;>
    simp [resume_gap_asker_tool, hc, gapAskerTry, hp, hs]

/-- C3 witness: the skip theorem at each of the concrete replies "SKIP",
"skip" and "Skip". -/
theorem C3_skip_case_insensitive_witness :
    ((resume_gap_asker_tool (ctxReply "SKIP")).1.status = "skipped" ∧
     (resume_gap_asker_tool (ctxReply "SKIP")).1.user_input = some skipUserInputText) ∧
    ((resume_gap_asker_tool (ctxReply "skip")).1.status = "skipped" ∧
     (resume_gap_asker_tool (ctxReply "skip")).1.user_input = some skipUserInputText) ∧
    ((resume_gap_asker_tool (ctxReply "Skip")).1.status = "skipped" ∧
     (resume_gap_asker_tool (ctxReply "Skip")).1.user_input = some skipUserInputText) :=
  ⟨C3_skip_case_insensitive (ctxReply "SKIP") _ "SKIP" rfl rfl (by decide),
   C3_skip_case_insensitive (ctxReply "skip") _ "skip" rfl rfl (by decide),
   C3_skip_case_insensitive (ctxReply "Skip") _ "Skip" rfl rfl (by decide)⟩

/-- C4 counterexample: after the reply `{"user_response": "SKIP"}` the
session-state key `"user_input"` holds the literal `"SKIP"`, which is not
the fixed explanatory string of the result. -/
theorem C4_counterexample_state_holds_literal_skip :
    (resume_gap_asker_tool (ctxReply "SKIP")).2.state "user_input" = some (Value.vStr "SKIP") ∧
    Value.vStr "SKIP" ≠ Value.vStr skipUserInputText := by
  exact ⟨rfl, by simp [skipUserInputText]⟩

/-- C4 (amended): after a reply whose upper-cased form is `"SKIP"`, the
result's `user_input` field is the fixed explanatory string, but the
session-state key `"user_input"` holds the literal reply string, because
the state write happens before the skip check. -/
theorem C4_skip_state_literal (ctx : ToolContext) (conf : ToolConfirmation) (R : String)
    (hc : ctx.tool_confirmation = some conf)
    (hp : conf.payload.lookup "user_response" = some (Value.vStr R))
    (hs : pyUpper R = "SKIP") :
    (resume_gap_asker_tool ctx).1.status = "skipped" ∧
    (resume_gap_asker_tool ctx).1.user_input = some skipUserInputText ∧
    (resume_gap_asker_tool ctx).2.state "user_input" = some (Value.vStr R) := by
  refine ⟨?_, ?_, ?_⟩ <;>
    simp [resume_gap_asker_tool, hc, gapAskerTry, hp, hs, stateSet]

/-- C4 witness: the amended skip-state theorem at the concrete reply
"SKIP". -/
theorem C4_skip_state_literal_witness :
    (resume_gap_asker_tool (ctxReply "SKIP")).1.status = "skipped" ∧
    (resume_gap_asker_tool (ctxReply "SKIP")).1.user_input = some skipUserInputText ∧
    (resume_gap_asker_tool (ctxReply "SKIP")).2.state "user_input" = some (Value.vStr "SKIP") :=
  C4_skip_state_literal (ctxReply "SKIP") _ "SKIP" rfl rfl (by decide)

/-- C5 counterexample: a reply whose `user_response` is the non-string `7`
yields status `"error"`, but the session-state key `"user_input"` is
overwritten from its prior value `"old"` to `7` before the failure. -/
theorem C5_counterexample_nonstring_mutates :
    (resume_gap_asker_tool badReplyCtx).1.status = "error" ∧
    badReplyCtx.state "user_input" = some (Value.vStr "old") ∧
    (resume_gap_asker_tool badReplyCtx).2.state "user_input" = some (Value.vInt 7) ∧
    Value.vInt 7 ≠ Value.vStr "old" := by
  exact ⟨rfl, rfl, rfl, by simp⟩

/-- C5 (amended): a malformed reply always yields status `"error"`; when
the `user_response` field is missing, the session-state key `"user_input"`
keeps its prior value, but when the field is present with a non-string
value v, the key is overwritten with v before the failure. -/
theorem C5_malformed_reply (ctx : ToolContext) (conf : ToolConfirmation) (v : Value)
    (hc : ctx.tool_confirmation = some conf)
    (hmal : conf.payload.lookup "user_response" = none ∨
            (conf.payload.lookup "user_response" = some v ∧ v.isStr = false)) :
    (resume_gap_asker_tool ctx).1.status = "error" ∧
    (conf.payload.lookup "user_response" = none →
      (resume_gap_asker_tool ctx).2.state "user_input" = ctx.state "user_input") ∧
    (conf.payload.lookup "user_response" = some v →
      (resume_gap_asker_tool ctx).2.state "user_input" = some v) := by
  rcases hmal with hnone | ⟨hsome, hv⟩
  · refine ⟨?_, fun _ => ?_, fun hs => ?_⟩
    · simp [resume_gap_asker_tool, hc, gapAskerTry, hnone]
    · simp [resume_gap_asker_tool, hc, gapAskerTry, hnone]
    · rw [hnone] at hs; exact absurd hs (by simp)
  · cases v with
    | vStr s => simp [Value.isStr] at hv
    | vInt n =>
      refine ⟨?_, fun hn => ?_, fun _ => ?_⟩
      · simp [resume_gap_asker_tool, hc, gapAskerTry, hsome]
      · rw [hn] at hsome; exact absurd hsome (by simp)
      · simp [resume_gap_asker_tool, hc, gapAskerTry, hsome, stateSet]
    | vNone =>
      refine ⟨?_, fun hn => ?_, fun _ => ?_⟩
      · simp [resume_gap_asker_tool, hc, gapAskerTry, hsome]
      · rw [hn] at hsome; exact absurd hsome (by simp)
      · simp [resume_gap_asker_tool, hc, gapAskerTry, hsome, stateSet]

/-- C5 witness: the malformed-reply theorem at the concrete context whose
reply payload lacks the `user_response` field. -/
theorem C5_malformed_reply_witness :
    (resume_gap_asker_tool missingFieldCtx).1.status = "error" ∧
    ((missingFieldCtx.tool_confirmation.get (by decide)).payload.lookup "user_response" = none →
      (resume_gap_asker_tool missingFieldCtx).2.state "user_input" =
        missingFieldCtx.state "user_input") ∧
    ((missingFieldCtx.tool_confirmation.get (by decide)).payload.lookup "user_response" =
        some Value.vNone →
      (resume_gap_asker_tool missingFieldCtx).2.state "user_input" = some Value.vNone) :=
  C5_malformed_reply missingFieldCtx _ Value.vNone rfl (Or.inl rfl)

/-- C7 counterexample: a well-formed reply delivered although the
pending-request registry is empty (no request was ever registered) is not
rejected: the collector returns `"info_collected"` and writes the reply
into the session state. -/
theorem C7_counterexample_unsolicited_accepted :
    unsolicitedCtx.pending_requests = [] ∧
    (resume_gap_asker_tool unsolicitedCtx).1.status = "info_collected" ∧
    "info_collected" ≠ "error" ∧
    unsolicitedCtx.state "user_input" = none ∧
    (resume_gap_asker_tool unsolicitedCtx).2.state "user_input" =
      some (Value.vStr "extra detail") := by
  exact ⟨rfl, rfl, by simp, rfl, rfl⟩

/-- C7 (amended): the collector never consults the pending-request registry
when a reply is present — its result and its effect on the session state
are identical whether requests were registered or none ever was. -/
theorem C7_registry_not_consulted (ctx : ToolContext) (conf : ToolConfirmation)
    (hc : ctx.tool_confirmation = some conf) :
    (resume_gap_asker_tool ctx).1 =
      (resume_gap_asker_tool { ctx with pending_requests := [] }).1 ∧
    (resume_gap_asker_tool ctx).2.state =
      (resume_gap_asker_tool { ctx with pending_requests := [] }).2.state := by
  have hc2 : ToolContext.tool_confirmation { ctx with pending_requests := [] } = some conf := hc
  constructor <;>
    · simp only [resume_gap_asker_tool, hc, hc2]
      rcases h : gapAskerTry ctx conf with ⟨res | e, st⟩ <;>
        simp_all [gapAskerTry]

/-- C7 witness: the registry-independence theorem at the concrete answered
context `ctxReply "extra detail"`. -/
theorem C7_registry_not_consulted_witness :
    (resume_gap_asker_tool (ctxReply "extra detail")).1 =
      (resume_gap_asker_tool { ctxReply "extra detail" with pending_requests := [] }).1 ∧
    (resume_gap_asker_tool (ctxReply "extra detail")).2.state =
      (resume_gap_asker_tool { ctxReply "extra detail" with pending_requests := [] }).2.state :=
  C7_registry_not_consulted (ctxReply "extra detail") _ rfl

/-- C6: the collector is a total function (the embedding of the source's
`try`/`except`, which converts every exception of the reply-reading block
into a structured result): on every input the result carries one of the
four statuses, and in the error case the message is the converted
exception text "An error occurred: ...". -/
theorem C6_total_structured_result (ctx : ToolContext) :
    (resume_gap_asker_tool ctx).1.status = "awaiting_user_input" ∨
    (resume_gap_asker_tool ctx).1.status = "skipped" ∨
    (resume_gap_asker_tool ctx).1.status = "info_collected" ∨
    ((resume_gap_asker_tool ctx).1.status = "error" ∧
     ∃ e : PyExc,
       gapAskerTry ctx (ctx.tool_confirmation.getD { payload := [] }) = (.error e, (resume_gap_asker_tool ctx).2.state) ∧
       (resume_gap_asker_tool ctx).1.message = some ("An error occurred: " ++ e.str)) := by
  rcases hc : ctx.tool_confirmation with _ | conf
  · left
    simp [resume_gap_asker_tool, hc]
  · rcases h2 : conf.payload.lookup "user_response" with _ | v
    · right; right; right
      refine ⟨?_, .keyError "user_response", ?_, ?_⟩ <;>
        simp only [resume_gap_asker_tool, gapAskerTry, hc, h2, Option.getD_some]
    · cases v with
      | vStr s =>
        by_cases hs : pyUpper s = "SKIP"
        · right; left
          simp [resume_gap_asker_tool, gapAskerTry, hc, h2, hs]
        · right; right; left
          simp [resume_gap_asker_tool, gapAskerTry, hc, h2, hs]
      | vInt n =>
        right; right; right
        refine ⟨?_, .attributeError "int" "upper", ?_, ?_⟩ <;>
          simp only [resume_gap_asker_tool, gapAskerTry, hc, h2, Option.getD_some,
            Value.pyTypeName]
      | vNone =>
        right; right; right
        refine ⟨?_, .attributeError "NoneType" "upper", ?_, ?_⟩ <;>
          simp only [resume_gap_asker_tool, gapAskerTry, hc, h2, Option.getD_some,
            Value.pyTypeName]

/-- C8: the template loader returns the full text of the template file
when it exists, raises the re-raised not-found condition when the file is
absent, raises the generic condition on any other read error, and the two
raised conditions are distinguishable. -/
theorem C8_template_loader (fs : String → FileReadResult) (fileDir : String)
    (c : String) (msg : String) :
    (fs (templatePath fileDir) = .content c →
      get_latex_template_tool fs fileDir = .ok c) ∧
    (fs (templatePath fileDir) = .fileNotFound →
      get_latex_template_tool fs fileDir =
        .error (.fileNotFoundError ("LaTeX template not found at: " ++ templatePath fileDir))) ∧
    (fs (templatePath fileDir) = .readError msg →
      get_latex_template_tool fs fileDir =
        .error (.genericError ("Error reading LaTeX template: " ++ msg))) ∧
    TemplateError.fileNotFoundError ("LaTeX template not found at: " ++ templatePath fileDir) ≠
      TemplateError.genericError ("Error reading LaTeX template: " ++ msg) := by
  refine ⟨fun h => ?_, fun h => ?_, fun h => ?_, by simp⟩ <;>
    simp [get_latex_template_tool, h]

/-- C8 witness: the template-loader theorem at a file system in which the
template is missing. -/
theorem C8_template_loader_witness :
    (fsAllMissing (templatePath "/app/my_agent") = .content "T" →
      get_latex_template_tool fsAllMissing "/app/my_agent" = .ok "T") ∧
    (fsAllMissing (templatePath "/app/my_agent") = .fileNotFound →
      get_latex_template_tool fsAllMissing "/app/my_agent" =
        .error (.fileNotFoundError ("LaTeX template not found at: " ++ templatePath "/app/my_agent"))) ∧
    (fsAllMissing (templatePath "/app/my_agent") = .readError "boom" →
      get_latex_template_tool fsAllMissing "/app/my_agent" =
        .error (.genericError ("Error reading LaTeX template: " ++ "boom"))) ∧
    TemplateError.fileNotFoundError ("LaTeX template not found at: " ++ templatePath "/app/my_agent") ≠
      TemplateError.genericError ("Error reading LaTeX template: " ++ "boom") :=
  C8_template_loader fsAllMissing "/app/my_agent" "T" "boom"

/-- C9 counterexample: the artifact writer returns `none` (the implicit
Python `None`) to its caller both when the service raises the
configuration `ValueError` and when it raises an unexpected exception —
the caller receives identical values for the two conditions, and no
version number. -/
theorem C9_counterexample_errors_indistinct :
    (save_generated_resume_latex svcNotConfigured "content").1 = none ∧
    (save_generated_resume_latex svcBroken "content").1 = none ∧
    (save_generated_resume_latex svcNotConfigured "content").1 =
      (save_generated_resume_latex svcBroken "content").1 := by
  exact ⟨rfl, rfl, rfl⟩

/-- C9 (amended): the artifact writer passes the content, as a text/plain
blob under the fixed filename, to the artifact service; on success it
returns a status-success result whose message embeds the version number;
on the configuration `ValueError` and on any unexpected failure it returns
`none` to the caller, the two conditions being distinguished only by the
different diagnostic lines it prints. -/
theorem C9_artifact_writer (save_artifact : String → Part → Except SaveExc Nat)
    (latex_content : String) (version : Nat) (e : String) :
    (save_artifact "generated_resume_latex.tex" (latexArtifactPart latex_content) = .ok version →
      save_generated_resume_latex save_artifact latex_content =
        (some { status := "success",
                message := "File '" ++ "generated_resume_latex.tex" ++ "' (version " ++
                  toString version ++ ") has been created and is now available for download." },
         [])) ∧
    (save_artifact "generated_resume_latex.tex" (latexArtifactPart latex_content) =
        .error (.valueError e) →
      save_generated_resume_latex save_artifact latex_content =
        (none, ["Error saving LaTeX artifact: " ++ e ++ ". Is ArtifactService configured in Runner?"])) ∧
    (save_artifact "generated_resume_latex.tex" (latexArtifactPart latex_content) =
        .error (.otherError e) →
      save_generated_resume_latex save_artifact latex_content =
        (none, ["An unexpected error occurred during LaTeX artifact save: " ++ e])) := by
  have hpart : latexArtifactPart latex_content =
      { inline_data := { mime_type := "text/plain", data := utf8Bytes latex_content } } := rfl
  refine ⟨fun h => ?_, fun h => ?_, fun h => ?_⟩ <;>
    · rw [hpart] at h
      simp [save_generated_resume_latex, h]

/-- C9 witness: the artifact-writer theorem at the service that stores the
part and answers version 3. -/
theorem C9_artifact_writer_witness :
    (svcOk "generated_resume_latex.tex" (latexArtifactPart "x") = .ok 3 →
      save_generated_resume_latex svcOk "x" =
        (some { status := "success",
                message := "File '" ++ "generated_resume_latex.tex" ++ "' (version " ++
                  toString 3 ++ ") has been created and is now available for download." },
         [])) ∧
    (svcOk "generated_resume_latex.tex" (latexArtifactPart "x") = .error (.valueError "E") →
      save_generated_resume_latex svcOk "x" =
        (none, ["Error saving LaTeX artifact: " ++ "E" ++ ". Is ArtifactService configured in Runner?"])) ∧
    (svcOk "generated_resume_latex.tex" (latexArtifactPart "x") = .error (.otherError "E") →
      save_generated_resume_latex svcOk "x" =
        (none, ["An unexpected error occurred during LaTeX artifact save: " ++ "E"])) :=
  C9_artifact_writer svcOk "x" 3 "E"

/-- C10: on every input the collector leaves every session-state key other
than `"user_input"` unchanged (so `"user_input"` is the only key it ever
writes and no key is deleted), and a `"user_input"` binding that was
present is still present afterwards. -/
theorem C10_frame (ctx : ToolContext) (k : String) (hk : k ≠ "user_input") :
    (resume_gap_asker_tool ctx).2.state k = ctx.state k ∧
    ((ctx.state "user_input").isSome = true →
      ((resume_gap_asker_tool ctx).2.state "user_input").isSome = true) := by
  rcases hc : ctx.tool_confirmation with _ | conf
  · constructor
    · simp [resume_gap_asker_tool, hc, ToolContext.request_confirmation]
    · intro hsome
      simpa [resume_gap_asker_tool, hc, ToolContext.request_confirmation] using hsome
  · rcases h2 : conf.payload.lookup "user_response" with _ | v
    · constructor
      · simp only [resume_gap_asker_tool, gapAskerTry, hc, h2]
      · intro hsome
        simpa only [resume_gap_asker_tool, gapAskerTry, hc, h2] using hsome
    · cases v with
      | vStr s =>
        by_cases hs : pyUpper s = "SKIP" <;>
          · constructor
            · simp only [resume_gap_asker_tool, gapAskerTry, hc, h2]
              simp [hs, stateSet, hk]
            · intro _
              simp only [resume_gap_asker_tool, gapAskerTry, hc, h2]
              simp [hs, stateSet]
      | vInt n =>
        constructor
        · simp only [resume_gap_asker_tool, gapAskerTry, hc, h2]
          simp [stateSet, hk]
        · intro _
          simp only [resume_gap_asker_tool, gapAskerTry, hc, h2]
          simp [stateSet]
      | vNone =>
        constructor
        · simp only [resume_gap_asker_tool, gapAskerTry, hc, h2]
          simp [stateSet, hk]
        · intro _
          simp only [resume_gap_asker_tool, gapAskerTry, hc, h2]
          simp [stateSet]

/-- C10 witness: the frame theorem at the concrete answered context and
the key `"critique"`. -/
theorem C10_frame_witness :
    (resume_gap_asker_tool (ctxReply "SKIP")).2.state "critique" =
      (ctxReply "SKIP").state "critique" ∧
    (((ctxReply "SKIP").state "user_input").isSome = true →
      ((resume_gap_asker_tool (ctxReply "SKIP")).2.state "user_input").isSome = true) :=
  C10_frame (ctxReply "SKIP") "critique" (by decide)

end ResumeOptimizer
